import Mathlib

/-!
Verification of the godet Chrome DevTools client (godet.go).

The Go source is shallowly embedded: the RemoteDebugger struct becomes a Lean
structure, its methods become explicit state-passing functions, Go maps become
association/key lists, Go channels become explicit flags and queues, and
Go panics (failed type assertions, double channel close) are modelled by
an Option result where none marks the panic.  Environment interactions
(the websocket, the HTTP discovery endpoint, encoding/json) are passed in as
explicit inputs or function parameters.
-/

namespace Godet

/-- A decoded JSON value as it appears in a Go map String to interface.
Nested objects are not needed by the verified operations, so object values
are limited to the shapes those operations inspect. -/
inductive JValue where
  | str (s : String)
  | num (n : Int)
  | bool (b : Bool)
  | null
  | arr (elems : List JValue)

/-- A Go map String to interface decoded from JSON, as an association list. -/
abbrev JObj : Type := List (String × JValue)

/-- Indexing a possibly nil Go map: a nil map (none) yields no value, and a
missing key yields no value (the Go comma-ok idiom reports ok = false). -/
def jlookup (res : Option JObj) (key : String) : Option JValue :=
  match res with
  | none => none
  | some obj => List.lookup key obj

/-- The Go type assertion v.(string): some on a string value, none (panic)
on any other dynamic type and on a nil interface. -/
def asString : Option JValue → Option String
  | some (.str s) => some s
  | _ => none

/-- The error values of the package (godet.go lines 74-86 and 195-199),
plus a constructor for errors produced by collaborators (dial, unmarshal). -/
inductive GoErr where
  | errNoActiveTab
  | errNoWsURL
  | errNoResponse
  | errClose
  | navigationError (text : String)
  | other (msg : String)
  deriving Repr, DecidableEq

/-- The wsMessage frame envelope (godet.go lines 395-401).  Result and Params
are raw bytes kept as strings. -/
structure WsMessage where
  id : Int
  result : String
  method : String
  params : String
  deriving Repr, DecidableEq

/-- A tab/page record (godet.go lines 139-148).  The kind field embeds the
Go field Type (its JSON name is type). -/
structure Tab where
  id : String
  kind : String
  title : String
  url : String
  wsURL : String
  deriving Repr, DecidableEq

/-- A browser cookie (godet.go lines 952-963).  The Go Expires field is a
float64; it is modelled numerically as an integer since no verified
operation computes with it. -/
structure Cookie where
  name : String
  value : String
  domain : String
  path : String
  size : Int
  expires : Int
  httpOnly : Bool
  secure : Bool
  session : Bool
  sameSite : String
  deriving Repr, DecidableEq

/-- An outbound command envelope as assembled by sendRawReplyRequest
(godet.go lines 426-430): a method and the params map, which is none when the
caller passed a nil Params (encoded as JSON null) and some of an entry list
otherwise (encoded as a JSON object). -/
structure Command where
  method : String
  params : Option JObj

/-- The entries carried by a command params field: a nil Go map and an empty
Go map both carry zero entries. -/
def paramsEntries : Option JObj → JObj
  | none => []
  | some o => o

/-- The RemoteDebugger session state (godet.go lines 201-216).  The websocket
pointer is an abstract connection identifier (none models a nil pointer);
the responses map is kept as its key list (the per-id channels are the
rendezvous, not data); the callbacks map is kept as its key list; the events
channel is the queue content.  requestsClosed and closedClosed record whether
the two Go channels have been closed.  The fields exitFlag, delivered,
enqueued and allocs are instrumentation: exitFlag records whether (and with
which remoteClosed flag) the reader loop has exited, delivered records the
events handed to callbacks by processEvents, enqueued is the append-only log
of every message ever placed on the events channel, and allocs is the
append-only log of every request id handed out. -/
structure RemoteDebugger where
  ws : Option Nat
  current : String
  reqID : Int
  verbose : Bool
  responses : List Int
  callbacks : List String
  events : List WsMessage
  requestsClosed : Bool
  closedClosed : Bool
  exitFlag : Option Bool
  delivered : List WsMessage
  enqueued : List WsMessage
  allocs : List Int
  deriving Repr, DecidableEq

/-- The session state after Connect succeeded (godet.go lines 261-290):
fresh maps and queues, request counter at zero, and a live channel bound to
the initial tab. -/
def connectRemote (conn : Nat) (tabID : String) : RemoteDebugger :=
  { ws := some conn
    current := tabID
    reqID := 0
    verbose := false
    responses := []
    callbacks := []
    events := []
    requestsClosed := false
    closedClosed := false
    exitFlag := none
    delivered := []
    enqueued := []
    allocs := [] }

/-! ## Request correlator: sendRawReplyRequest (godet.go lines 412-440) -/

/-- Two's-complement wraparound of a 64-bit Go int: the canonical
representative of n in the interval from -2^63 to 2^63 - 1.  On that
interval it is the identity, and it sends 2^63 to -2^63; it therefore
models the Go increment reqID++ when applied to reqID + 1. -/
def wrap64 (n : Int) : Int :=
  (n + 2 ^ 63) % 2 ^ 64 - 2 ^ 63

/-- The 64-bit value of the request counter after k successful allocations
starting from zero: the two's-complement reading of k. -/
def toInt64 (k : Nat) : Int := wrap64 k

/-- The id-allocation phase of sendRawReplyRequest (godet.go lines 413-424),
performed under the Session mutex: with no active channel it fails with
ErrorClose and touches nothing; otherwise it registers a fresh reply slot
under the current counter value, increments the counter (a Go int: 64-bit
two's complement, so the increment wraps), and returns the allocated id. -/
def sendAlloc (remote : RemoteDebugger) : Except GoErr Int × RemoteDebugger :=
  match remote.ws with
  | none => (.error .errClose, remote)
  | some _ =>
    let reqID := remote.reqID
    (.ok reqID,
      { remote with
          responses := reqID :: remote.responses
          reqID := wrap64 (remote.reqID + 1)
          allocs := remote.allocs ++ [reqID] })

/-- The completion phase of sendRawReplyRequest (godet.go lines 435-437):
after the reply arrives the slot is deleted from the map. -/
def sendComplete (remote : RemoteDebugger) (reqID : Int) : RemoteDebugger :=
  { remote with responses := remote.responses.erase reqID }

/-! ## Close (godet.go lines 371-389) -/

/-- Close: detach the websocket pointer under the mutex; only when it was
non-nil, close the requests channel, close the closed-signal channel and
close the websocket.  Closing an already-closed Go channel panics, which is
modelled by the outer none.  wsCloseErr is the error returned by the
websocket Close call.  The returned Option GoErr is the function's err
result (none is a nil error: when the pointer was already nil the err
variable keeps its zero value). -/
def closeRemote (wsCloseErr : Option GoErr) (remote : RemoteDebugger) :
    Option (Option GoErr × RemoteDebugger) :=
  let ws := remote.ws
  let detached := { remote with ws := none }
  match ws with
  | some _ =>
    if detached.requestsClosed || detached.closedClosed then
      none
    else
      some (wsCloseErr, { detached with requestsClosed := true, closedClosed := true })
  | none => some (none, detached)

/-! ## Discovery and channel manager: TabList filter and connectWs
(godet.go lines 292-362 and 603-628) -/

/-- The filtering step of TabList (godet.go lines 615-627) applied to the
outcome of the GET /json/list call. -/
def tabList (filter : String) (listResult : Except GoErr (List Tab)) :
    Except GoErr (List Tab) :=
  match listResult with
  | .error e => .error e
  | .ok tabs => .ok (if filter = "" then tabs else tabs.filter (fun t => t.kind = filter))

/-- The endpoint-recovery loop of connectWs (godet.go lines 306-311): copy the
websocket URL from the first listed tab with a matching id. -/
def findWsURL (tabs : List Tab) (tab : Tab) : Tab :=
  match tabs.find? (fun t => tab.id = t.id) with
  | some t => { tab with wsURL := t.wsURL }
  | none => tab

/-- The dialing tail of connectWs (godet.go lines 333-361): fail when the
target has no endpoint, otherwise dial it; on success install the new channel
and current tab id.  The Bool reports whether a dial was attempted. -/
def connectDial (remote : RemoteDebugger) (tab : Tab)
    (dial : String → Except GoErr Nat) :
    Except GoErr Unit × RemoteDebugger × Bool :=
  if tab.wsURL.length = 0 then (.error .errNoWsURL, remote, false)
  else
    match dial tab.wsURL with
    | .error e => (.error e, remote, true)
    | .ok conn => (.ok (), { remote with ws := some conn, current := tab.id }, true)

/-- connectWs (godet.go lines 292-362).  listResult is the outcome of the
GET /json/list performed by TabList when the target is nil or lacks an
endpoint; dial is the websocket dialer.  Returns the error result, the new
session state, and whether a dial was attempted. -/
def connectWs (remote : RemoteDebugger) (tab? : Option Tab)
    (listResult : Except GoErr (List Tab))
    (dial : String → Except GoErr Nat) :
    Except GoErr Unit × RemoteDebugger × Bool :=
  let resolved : Except GoErr Tab :=
    match tab? with
    | none =>
      match tabList "page" listResult with
      | .error e => .error e
      | .ok [] => .error .errNoActiveTab
      | .ok (t :: _) => .ok t
    | some tab =>
      if tab.wsURL.length = 0 then
        match tabList "page" listResult with
        | .error e => .error e
        | .ok [] => .error .errNoActiveTab
        | .ok (t :: ts) => .ok (findWsURL (t :: ts) tab)
      else .ok tab
  match resolved with
  | .error e => (.error e, remote, false)
  | .ok tab =>
    match remote.ws with
    | some _ =>
      if tab.id = remote.current then (.ok (), remote, false)
      else connectDial { remote with ws := none, current := "" } tab dial
    | none => connectDial remote tab dial

/-! ## Command catalog functions under verification.

Each is a function of the outcome of the SendRequest / sendRawReplyRequest
call it performs; that outcome is an error, or the decoded reply map, which
is none when SendRequest returned a nil map (nil raw reply).  An outer
Option models a Go panic in the function body (failed type assertion). -/

/-- Navigate (godet.go lines 692-710): propagate a send error; an errorText
field in the reply becomes a NavigationError via the errorText.(string)
assertion; otherwise a missing frameId yields an empty id and nil error, and
a present frameId is returned via the frameID.(string) assertion. -/
def navigate (sendRes : Except GoErr (Option JObj)) : Option (String × Option GoErr) :=
  match sendRes with
  | .error e => some ("", some e)
  | .ok res =>
    match jlookup res "errorText" with
    | some v =>
      match asString (some v) with
      | some text => some ("", some (.navigationError text))
      | none => none
    | none =>
      match jlookup res "frameId" with
      | none => some ("", none)
      | some v =>
        match asString (some v) with
        | some frameID => some (frameID, none)
        | none => none

/-- SetCookie reply handling (godet.go lines 1050-1055): on a send error
return false; otherwise return the value of the unchecked type assertion
res succes-field .(bool), which panics (none) when the field is absent,
non-boolean, or the map is nil. -/
def setCookie (sendRes : Except GoErr (Option JObj)) : Option Bool :=
  match sendRes with
  | .error _ => some false
  | .ok res =>
    match jlookup res "success" with
    | some (.bool b) => some b
    | _ => none

/-- The append loop of GetCertificate (godet.go lines 1656-1658): each
element passes through the item.(string) assertion; the first non-string
element panics (none). -/
def assertStrings : List JValue → Option (List String)
  | [] => some []
  | v :: vs =>
    match v with
    | .str s =>
      match assertStrings vs with
      | some rest => some (s :: rest)
      | none => none
    | _ => none

/-- GetCertificate (godet.go lines 1648-1660): without checking err it runs
the resp tableNames .([]interface) assertion (nil resp or missing or
non-array field panics), pre-sizes certs to the array length with
make, then appends every asserted string, and returns certs together with
the send error. -/
def getCertificate (sendRes : Except GoErr (Option JObj)) :
    Option (List String × Option GoErr) :=
  let res : Option JObj := match sendRes with | .error _ => none | .ok r => r
  let err : Option GoErr := match sendRes with | .error e => some e | .ok _ => none
  match jlookup res "tableNames" with
  | some (.arr items) =>
    match assertStrings items with
    | some names => some (List.replicate items.length "" ++ names, err)
    | none => none
  | _ => none

/-- The command submitted by GetCookies (godet.go lines 967-974): params
starts empty and gains a urls entry only when the argument is non-nil. -/
def getCookiesCommand (urls : Option (List String)) : Command :=
  { method := "Network.getCookies"
    params := some (match urls with
      | none => []
      | some us => [("urls", JValue.arr (us.map JValue.str))]) }

/-- The command submitted by GetAllCookies (godet.go line 997): a nil params. -/
def getAllCookiesCommand : Command :=
  { method := "Network.getCookies", params := none }

/-- GetCookies (godet.go lines 967-992).  send is the behaviour of
sendRawReplyRequest (session plus peer) on the submitted command, yielding
raw reply bytes; unmarshalC is the behaviour of json.Unmarshal into the
anonymous cookies struct. -/
def getCookies (send : Command → Except GoErr String)
    (unmarshalC : String → Except String (List Cookie))
    (urls : Option (List String)) : Except GoErr (List Cookie) :=
  match send (getCookiesCommand urls) with
  | .error e => .error e
  | .ok raw =>
    match unmarshalC raw with
    | .error e => .error (.other e)
    | .ok cs => .ok cs

/-- GetAllCookies (godet.go lines 996-1015): same body as GetCookies but the
submitted command carries a nil params. -/
def getAllCookies (send : Command → Except GoErr String)
    (unmarshalC : String → Except String (List Cookie)) : Except GoErr (List Cookie) :=
  match send getAllCookiesCommand with
  | .error e => .error e
  | .ok raw =>
    match unmarshalC raw with
    | .error e => .error (.other e)
    | .ok cs => .ok cs

/-! ## The reader loop: readMessages (godet.go lines 474-548).

One loop iteration interacts with the environment at several points: the
outer select between the closed-signal and the default branch, the socket()
reads (volatile reads of the ws field under the mutex, which other threads
may change between reads), the ReadJSON outcome, and the inner select between
enqueueing and the closed-signal.  Each iteration therefore carries these
observations; the callback lookup reads the session state at the iteration.
The synthetic terminal events are appended to the event queue when the loop
exits, per lines 542-547. -/

/-- EventClosed (godet.go line 26). -/
def EventClosed : String := "RemoteDebugger.closed"

/-- EventDisconnect (godet.go line 29). -/
def EventDisconnect : String := "RemoteDebugger.disconnected"

/-- The synthetic frame emitted on normal shutdown (godet.go line 543). -/
def closedMessage : WsMessage :=
  { id := 0, result := "", method := EventClosed, params := "\x7b\x7d" }

/-- The synthetic frame emitted on disconnect (godet.go line 546). -/
def disconnectMessage : WsMessage :=
  { id := 0, result := "", method := EventDisconnect, params := "\x7b\x7d" }

/-- The outcome of a ws.ReadJSON call (godet.go line 491). -/
inductive ReadResult where
  | ok (m : WsMessage)
  | err (permanent : Bool)

/-- The environment observations of one default-branch iteration of the
reader loop: the socket() value at the top of the branch (line 485), the
socket() value re-read after a read error (line 493), the socket() value
read at the exit emission check (line 545), the ReadJSON outcome, and
whether the inner enqueue select observed the closed-signal (line 517). -/
structure IterEnv where
  sockBefore : Option Nat
  sockOnErr : Option Nat
  sockExit : Option Nat
  read : ReadResult
  enqClosed : Bool

/-- One iteration of the reader loop: either the outer select took the
closed-signal case (line 480) or it ran the default branch with the given
observations. -/
inductive ReaderObs where
  | closedSig
  | work (env : IterEnv)

/-- The exit emission of readMessages (godet.go lines 542-547): the closed
event when the loop exited with remoteClosed set, else the disconnect event
when the session still points at this reader's channel, else nothing. -/
def exitEmission (remoteClosed : Bool) (sockExit : Option Nat) (wsC : Nat) :
    List WsMessage :=
  if remoteClosed then [closedMessage]
  else if sockExit = some wsC then [disconnectMessage]
  else []

/-- One reader iteration for the reader bound to channel wsC, given the
callback registry keys at that moment.  Returns the messages appended to the
event queue (including the exit emission when the loop exits here) and, when
the loop exits, the remoteClosed flag it exited with. -/
def readIter (wsC : Nat) (callbacks : List String) :
    ReaderObs → List WsMessage × Option Bool
  | .closedSig => (exitEmission true none wsC, some true)
  | .work env =>
    if env.sockBefore = some wsC then
      match env.read with
      | .err perm =>
        if env.sockOnErr = some wsC then
          if perm then (exitEmission false env.sockExit wsC, some false)
          else ([], none)
        else ([], none)
      | .ok m =>
        if m.method = "" then ([], none)
        else if callbacks.contains m.method then
          if env.enqClosed then (exitEmission true env.sockExit wsC, some true)
          else ([m], none)
        else ([], none)
    else (exitEmission false env.sockExit wsC, some false)

/-! ## Session traces.

A trace interleaves the mutex-serialized state mutations of the Session:
command submissions and completions, Close, callback registration, reader
iterations and event dispatches, and channel rebinds.  wsC is the channel
instance the reader was started with (taken by value at launch). -/

/-- One serialized session operation. -/
inductive SOp where
  | send
  | complete (reqID : Int)
  | closeOp (wsCloseErr : Option GoErr)
  | register (method : String)
  | readStep (o : ReaderObs)
  | dispatch
  | connect (tab? : Option Tab) (listResult : Except GoErr (List Tab))
      (dial : String → Except GoErr Nat)

/-- The state transition of one session operation.  send and complete are the
two mutex-protected phases of sendRawReplyRequest; closeOp is Close (its
channel-close panic cannot fire on reachable states, so only its state
mutation is kept: detach the pointer and, when it was live, mark both
channels closed); register is CallbackEvent (godet.go lines 1689-1693);
readStep is a reader iteration (a no-op once the reader has exited);
dispatch is one processEvents round (godet.go lines 550-565), delivering the
head event only when a callback is registered for it; connect is connectWs. -/
def stepOp (wsC : Nat) (s : RemoteDebugger) : SOp → RemoteDebugger
  | .send => (sendAlloc s).2
  | .complete reqID => sendComplete s reqID
  | .closeOp _ =>
    match s.ws with
    | some _ => { s with ws := none, requestsClosed := true, closedClosed := true }
    | none => { s with ws := none }
  | .register m =>
    { s with callbacks := if s.callbacks.contains m then s.callbacks else m :: s.callbacks }
  | .readStep o =>
    match s.exitFlag with
    | some _ => s
    | none =>
      let r := readIter wsC s.callbacks o
      { s with
          events := s.events ++ r.1
          enqueued := s.enqueued ++ r.1
          exitFlag := r.2 }
  | .dispatch =>
    match s.events with
    | [] => s
    | ev :: rest =>
      { s with
          events := rest
          delivered := if s.callbacks.contains ev.method then s.delivered ++ [ev]
                       else s.delivered }
  | .connect tab? listResult dial => (connectWs s tab? listResult dial).2.1

/-- Run a trace of session operations. -/
def runOps (wsC : Nat) (s : RemoteDebugger) (ops : List SOp) : RemoteDebugger :=
  ops.foldl (stepOp wsC) s

/-- The number of messages with the given method name in a list. -/
def countMethod (name : String) (msgs : List WsMessage) : Nat :=
  msgs.countP (fun m => m.method == name)

/-- Invariant tracked for the shutdown claim: the synthetic disconnect event
has never been enqueued; the synthetic closed event has been enqueued at most
once, and not at all while the reader is still running; and neither the queue
content nor the deliveries of either synthetic event can exceed its
enqueues. -/
def SynthInv (s : RemoteDebugger) : Prop :=
  countMethod EventDisconnect s.enqueued = 0 ∧
  countMethod EventClosed s.enqueued ≤ 1 ∧
  (s.exitFlag = none → countMethod EventClosed s.enqueued = 0) ∧
  countMethod EventClosed s.delivered + countMethod EventClosed s.events ≤
    countMethod EventClosed s.enqueued ∧
  countMethod EventDisconnect s.delivered + countMethod EventDisconnect s.events ≤
    countMethod EventDisconnect s.enqueued

/-! ## Concrete fixtures used by witnesses and counterexamples. -/

/-- A session whose channel has been torn down (the state Close leaves
behind). -/
def closedSession : RemoteDebugger :=
  { connectRemote 0 "tab0" with
      ws := none
      requestsClosed := true
      closedClosed := true }

/-- A live session bound to tab A. -/
def sessionA : RemoteDebugger := connectRemote 0 "A"

/-- A target tab that matches the bound tab but carries no websocket URL. -/
def tabANoURL : Tab :=
  { id := "A", kind := "page", title := "", url := "", wsURL := "" }

/-- A target tab that matches the bound tab and carries an endpoint. -/
def tabAWithURL : Tab :=
  { id := "A", kind := "page", title := "", url := "", wsURL := "ws-endpoint" }

/-- An ordinary network event frame. -/
def sampleEvent : WsMessage :=
  { id := 0, result := "", method := "Network.requestWillBeSent", params := "" }

/-- Reader observations that read sampleEvent on the live channel 0. -/
def sampleEventObs : IterEnv :=
  { sockBefore := some 0
    sockOnErr := none
    sockExit := none
    read := .ok sampleEvent
    enqClosed := false }

/-- Post-Close reader observations: a read error on the retired channel,
with the session socket already detached at every re-read. -/
def postCloseErrObs : IterEnv :=
  { sockBefore := some 0
    sockOnErr := none
    sockExit := none
    read := .err true
    enqClosed := false }

/-- A post-Close trace exercising both shutdown observation paths: a read
error on the retired channel, then the closed-signal select case, then one
dispatcher round. -/
def postCloseTrace : List SOp :=
  [SOp.readStep (.work postCloseErrObs), SOp.readStep .closedSig, SOp.dispatch]

/-! # Theorems -/

/-- Claim C2: when the Session has no active channel, submission fails with
the Closed error and the Session state is completely unchanged: no request id
is allocated and no reply slot is registered. -/
theorem c2_submit_after_close_fails_unchanged (remote : RemoteDebugger)
    (h : remote.ws = none) :
    sendAlloc remote = (.error .errClose, remote) := by
  unfold sendAlloc
  rw [h]

/-- Witness for C2 at a concrete torn-down session. -/
theorem c2_submit_after_close_fails_unchanged_witness :
    sendAlloc closedSession = (.error .errClose, closedSession) :=
  c2_submit_after_close_fails_unchanged closedSession rfl

/-- Claim C9: a second Close on a Session whose websocket pointer is already
nil returns a nil error, performs no channel close (so no double-close
panic, modelled by the outer some), and leaves every field unchanged. -/
theorem c9_close_idempotent (wsCloseErr : Option GoErr) (remote : RemoteDebugger)
    (h : remote.ws = none) :
    closeRemote wsCloseErr remote = some (none, remote) := by
  cases remote
  simp_all [closeRemote]

/-- Witness for C9 at the concrete state a first Close leaves behind. -/
theorem c9_close_idempotent_witness :
    closeRemote (some (.other "ws close failed")) closedSession =
      some (none, closedSession) :=
  c9_close_idempotent (some (.other "ws close failed")) closedSession rfl

/-- Claim C5: Navigate returns the frame id carried in the reply; when the
reply carries errorText it returns a NavigationError and an empty frame id
instead; when the reply carries neither errorText nor frameId it returns an
empty string and no error. -/
theorem c5_navigate_result (res : JObj) :
    (∀ t, jlookup (some res) "errorText" = some (.str t) →
      navigate (.ok (some res)) = some ("", some (.navigationError t))) ∧
    (jlookup (some res) "errorText" = none →
      ∀ f, jlookup (some res) "frameId" = some (.str f) →
        navigate (.ok (some res)) = some (f, none)) ∧
    (jlookup (some res) "errorText" = none →
      jlookup (some res) "frameId" = none →
        navigate (.ok (some res)) = some ("", none)) := by
  refine ⟨?_, ?_, ?_⟩ <;> intros <;> simp_all [navigate, asString]

/-- Witness for C5 on a concrete reply carrying a frame id. -/
theorem c5_navigate_result_witness :
    navigate (.ok (some [("frameId", JValue.str "frame-1")])) =
      some ("frame-1", none) :=
  (c5_navigate_result [("frameId", JValue.str "frame-1")]).2.1 rfl "frame-1" rfl

/-- Claim C6 (code evaluated at the failing inputs): SetCookie panics, rather
than returning false, when the success field is absent from the reply, when
the reply map is nil, and when the field is present but not a boolean.  The
none results are the modelled panics of the unchecked type assertion. -/
theorem c6_setcookie_assertion_panics :
    setCookie (.ok (some [])) = none ∧
    setCookie (.ok none) = none ∧
    setCookie (.ok (some [("success", JValue.str "true")])) = none :=
  ⟨rfl, rfl, rfl⟩

/-- The append loop maps an all-string JSON array back to its strings. -/
lemma assertStrings_map_str (names : List String) :
    assertStrings (names.map JValue.str) = some names := by
  induction names with
  | nil => rfl
  | cons a l ih => simp [assertStrings, ih]

/-- Claim C8: on a successful reply whose tableNames array holds n strings,
GetCertificate returns (without panicking) a slice of length 2*n: n empty
strings from the pre-sized make, followed by the n table names added by
append. -/
theorem c8_getcertificate_double_length (res : JObj) (names : List String)
    (h : jlookup (some res) "tableNames" = some (.arr (names.map JValue.str))) :
    ∃ certs,
      getCertificate (.ok (some res)) = some (certs, none) ∧
      certs.length = 2 * names.length ∧
      certs.take names.length = List.replicate names.length "" ∧
      certs.drop names.length = names := by
  refine ⟨List.replicate names.length "" ++ names, ?_, ?_, ?_, ?_⟩
  · simp [getCertificate, h, assertStrings_map_str]
  · simp [two_mul]
  · exact List.take_left' (List.length_replicate _ _)
  · exact List.drop_left' (List.length_replicate _ _)

/-- Witness for C8 on a concrete one-element certificate table. -/
theorem c8_getcertificate_double_length_witness :
    ∃ certs,
      getCertificate (.ok (some [("tableNames", JValue.arr (["ca"].map JValue.str))])) =
        some (certs, none) ∧
      certs.length = 2 * (["ca"] : List String).length ∧
      certs.take (["ca"] : List String).length =
        List.replicate (["ca"] : List String).length "" ∧
      certs.drop (["ca"] : List String).length = ["ca"] :=
  c8_getcertificate_double_length [("tableNames", JValue.arr (["ca"].map JValue.str))]
    ["ca"] rfl

/-- Claim C10: GetAllCookies is observably equivalent to GetCookies nil: the
two submitted commands carry the same method and both carry zero parameter
entries (a nil Params versus an entryless Params), and as long as the peer
answers the two submissions alike the two calls return the same cookie list
and the same error, since the decode paths are identical. -/
theorem c10_getallcookies_eq_getcookies_nil
    (send : Command → Except GoErr String)
    (unmarshalC : String → Except String (List Cookie))
    (hpeer : send getAllCookiesCommand = send (getCookiesCommand none)) :
    getAllCookies send unmarshalC = getCookies send unmarshalC none ∧
    getAllCookiesCommand.method = (getCookiesCommand none).method ∧
    paramsEntries getAllCookiesCommand.params = [] ∧
    paramsEntries (getCookiesCommand none).params = [] := by
  refine ⟨?_, rfl, rfl, rfl⟩
  unfold getAllCookies getCookies
  rw [hpeer]

/-- Witness for C10 at a concrete peer behaviour. -/
theorem c10_getallcookies_eq_getcookies_nil_witness :
    getAllCookies (fun _ => .ok "reply") (fun _ => .ok []) =
      getCookies (fun _ => .ok "reply") (fun _ => .ok []) none :=
  (c10_getallcookies_eq_getcookies_nil (fun _ => .ok "reply") (fun _ => .ok []) rfl).1

/-- findWsURL never changes the tab identity, only its endpoint. -/
lemma findWsURL_id (tabs : List Tab) (tab : Tab) : (findWsURL tabs tab).id = tab.id := by
  unfold findWsURL
  split <;> rfl

/-- Counterexample to claim C7 as stated: a session with an active channel
bound to tab A, asked to connect to a target whose id is A but whose
websocket URL is empty, performs the tab-list fetch before the
already-bound check; when that listing yields no page tab, connectWs
returns ErrorNoActiveTab instead of the success the claim promises. -/
theorem c7_counterexample_empty_wsurl :
    sessionA.ws = some 0 ∧
    tabANoURL.id = sessionA.current ∧
    connectWs sessionA (some tabANoURL) (.ok [])
        (fun _ => .error (.other "dial refused")) =
      (.error .errNoActiveTab, sessionA, false) :=
  ⟨rfl, rfl, rfl⟩

/-- Claim C7 as amended: if additionally the target tab carries a non-empty
websocket URL, or the page-tab listing succeeds and is non-empty, then
connectWs on a target whose id equals the bound tab id returns success with
the session state unchanged and no dial attempted. -/
theorem c7_already_bound_no_side_effects (remote : RemoteDebugger) (conn : Nat)
    (tab : Tab) (listResult : Except GoErr (List Tab))
    (dial : String → Except GoErr Nat)
    (hws : remote.ws = some conn) (hid : tab.id = remote.current)
    (hres : tab.wsURL.length ≠ 0 ∨
      ∃ t ts, tabList "page" listResult = .ok (t :: ts)) :
    connectWs remote (some tab) listResult dial = (.ok (), remote, false) := by
  by_cases hlen : tab.wsURL.length = 0
  · rcases hres with h | ⟨t, ts, h⟩
    · exact absurd hlen h
    · simp [connectWs, hlen, h, hws, findWsURL_id, hid]
  · simp [connectWs, hlen, hws, hid]

/-- Witness for the amended C7 at a concrete bound session and tab. -/
theorem c7_already_bound_no_side_effects_witness :
    connectWs sessionA (some tabAWithURL) (.error (.other "list unavailable"))
        (fun _ => .error (.other "dial refused")) =
      (.ok (), sessionA, false) :=
  c7_already_bound_no_side_effects sessionA 0 tabAWithURL
    (.error (.other "list unavailable")) (fun _ => .error (.other "dial refused"))
    rfl rfl (.inl (by decide))

/-- connectWs only rewires the channel binding: the request counter, the
allocation log, the callback registry, the queues and the reader flag are
untouched on every path. -/
lemma connectWs_preserves (s : RemoteDebugger) (tab? : Option Tab)
    (listResult : Except GoErr (List Tab)) (dial : String → Except GoErr Nat) :
    ((connectWs s tab? listResult dial).2.1).reqID = s.reqID ∧
    ((connectWs s tab? listResult dial).2.1).allocs = s.allocs ∧
    ((connectWs s tab? listResult dial).2.1).callbacks = s.callbacks ∧
    ((connectWs s tab? listResult dial).2.1).events = s.events ∧
    ((connectWs s tab? listResult dial).2.1).enqueued = s.enqueued ∧
    ((connectWs s tab? listResult dial).2.1).delivered = s.delivered ∧
    ((connectWs s tab? listResult dial).2.1).exitFlag = s.exitFlag := by
  unfold connectWs connectDial
  dsimp only
  repeat' split
  all_goals exact ⟨rfl, rfl, rfl, rfl, rfl, rfl, rfl⟩

/-- Every session operation leaves the request counter unchanged or applies
the wrapping increment while logging exactly the pre-increment value. -/
lemma stepOp_reqID_allocs (wsC : Nat) (s : RemoteDebugger) (op : SOp) :
    ((stepOp wsC s op).reqID = s.reqID ∧ (stepOp wsC s op).allocs = s.allocs) ∨
    ((stepOp wsC s op).reqID = wrap64 (s.reqID + 1) ∧
      (stepOp wsC s op).allocs = s.allocs ++ [s.reqID]) := by
  cases op with
  | send =>
    cases hws : s.ws with
    | none => left; simp [stepOp, sendAlloc, hws]
    | some c => right; simp [stepOp, sendAlloc, hws]
  | complete reqID => left; simp [stepOp, sendComplete]
  | closeOp e => left; cases hws : s.ws <;> simp [stepOp, hws]
  | register m => left; simp [stepOp]
  | readStep o => left; cases hf : s.exitFlag <;> simp [stepOp, hf]
  | dispatch => left; cases hev : s.events <;> simp [stepOp, hev]
  | connect tab? listResult dial =>
    left
    exact ⟨(connectWs_preserves s tab? listResult dial).1,
      (connectWs_preserves s tab? listResult dial).2.1⟩

/-- The wrapping increment tracks the two's-complement reading of the
allocation count. -/
lemma wrap64_toInt64_succ (n : Nat) : wrap64 (toInt64 n + 1) = toInt64 (n + 1) := by
  unfold toInt64 wrap64
  push_cast
  omega

/-- Below 2^63 allocations the two's-complement reading is the count
itself. -/
lemma toInt64_of_lt (k : Nat) (h : k < 2 ^ 63) : toInt64 k = k := by
  unfold toInt64 wrap64
  have h' : (k : Int) < 2 ^ 63 := by exact_mod_cast h
  omega

/-- At exactly 2^63 allocations the counter wraps to the minimum int64. -/
lemma toInt64_two_pow_63 : toInt64 (2 ^ 63) = -(2 ^ 63) := by
  unfold toInt64 wrap64
  norm_num

/-- A fresh Session satisfies the counter characterization: zero allocations,
counter at the reading of zero. -/
lemma connectRemote_reqID_init (conn : Nat) (tabID : String) :
    (connectRemote conn tabID).reqID =
      toInt64 (connectRemote conn tabID).allocs.length := by
  show (0 : Int) = toInt64 0
  decide

/-- Trace invariant for the allocation log: starting from a fresh Session the
log is always the two's-complement readings of 0, 1, 2, ... in order, and
the counter holds the reading of the log length. -/
lemma runOps_allocs_characterization (wsC : Nat) (ops : List SOp) :
    ∀ s : RemoteDebugger,
      s.allocs = (List.range s.allocs.length).map toInt64 →
      s.reqID = toInt64 s.allocs.length →
      (runOps wsC s ops).allocs =
        (List.range (runOps wsC s ops).allocs.length).map toInt64 ∧
      (runOps wsC s ops).reqID = toInt64 (runOps wsC s ops).allocs.length := by
  induction ops with
  | nil => exact fun s h1 h2 => ⟨h1, h2⟩
  | cons op rest ih =>
    intro s h1 h2
    show (runOps wsC (stepOp wsC s op) rest).allocs = _ ∧ _
    rcases stepOp_reqID_allocs wsC s op with ⟨hr, ha⟩ | ⟨hr, ha⟩
    · exact ih _ (by rw [ha]; exact h1) (by rw [hr, ha]; exact h2)
    · apply ih
      · rw [ha]
        have hlen : (s.allocs ++ [s.reqID]).length = s.allocs.length + 1 := by
          simp
        rw [hlen, List.range_succ, List.map_append, List.map_singleton,
          ← h1, ← h2]
      · rw [hr, ha, h2, wrap64_toInt64_succ]
        have hlen : (s.allocs ++ [toInt64 s.allocs.length]).length =
            s.allocs.length + 1 := by
          simp
        rw [hlen]

/-- Submissions on a live channel always allocate: over a trace of n
submissions the log grows by n and the channel stays put. -/
lemma runOps_replicate_send (wsC : Nat) (n : Nat) :
    ∀ s : RemoteDebugger, s.ws.isSome →
      (runOps wsC s (List.replicate n SOp.send)).allocs.length =
        s.allocs.length + n ∧
      (runOps wsC s (List.replicate n SOp.send)).ws = s.ws := by
  induction n with
  | zero => intro s _; exact ⟨rfl, rfl⟩
  | succ k ih =>
    intro s hws
    rw [List.replicate_succ]
    cases hw : s.ws with
    | none => rw [hw] at hws; exact absurd hws (by simp)
    | some c =>
      have hstep : stepOp wsC s .send =
          { s with
              responses := s.reqID :: s.responses
              reqID := wrap64 (s.reqID + 1)
              allocs := s.allocs ++ [s.reqID] } := by
        simp [stepOp, sendAlloc, hw]
      obtain ⟨hlen, hwss⟩ := ih (stepOp wsC s .send) (by rw [hstep]; simp [hw])
      constructor
      · show (runOps wsC (stepOp wsC s .send)
            (List.replicate k SOp.send)).allocs.length = _
        rw [hlen, hstep]
        show (s.allocs ++ [s.reqID]).length + k = s.allocs.length + (k + 1)
        simp only [List.length_append, List.length_singleton]
        omega
      · show (runOps wsC (stepOp wsC s .send)
            (List.replicate k SOp.send)).ws = some c
        rw [hwss, hstep]
        exact hw

/-- Counterexample to claim C1 as stated: over the lifetime of a Session the
64-bit request counter wraps.  On the explicit trace of 2^63 + 1 submissions
from a fresh Session, the 2^63-th allocated id is the minimum int64, which is
smaller than its predecessor 2^63 - 1: the allocation log is not strictly
increasing. -/
theorem c1_counterexample_wraparound :
    ¬ (((runOps 0 (connectRemote 0 "tab0")
          (List.replicate (2 ^ 63 + 1) SOp.send)).allocs).Pairwise (· < ·) ∧
       ((runOps 0 (connectRemote 0 "tab0")
          (List.replicate (2 ^ 63 + 1) SOp.send)).allocs).Nodup) := by
  rintro ⟨hpw, -⟩
  have h := (runOps_replicate_send 0 (2 ^ 63 + 1) (connectRemote 0 "tab0")
    (by rfl)).1
  have hz : (connectRemote 0 "tab0").allocs.length = 0 := rfl
  have hlen : (runOps 0 (connectRemote 0 "tab0")
      (List.replicate (2 ^ 63 + 1) SOp.send)).allocs.length = 2 ^ 63 + 1 := by
    omega
  have hchar := (runOps_allocs_characterization 0
    (List.replicate (2 ^ 63 + 1) SOp.send) (connectRemote 0 "tab0")
    (by rfl) (by decide)).1
  rw [hlen] at hchar
  rw [hchar, List.pairwise_iff_getElem] at hpw
  have hlength : (List.map toInt64 (List.range (2 ^ 63 + 1))).length = 2 ^ 63 + 1 := by
    rw [List.length_map, List.length_range]
  have hi : 2 ^ 63 - 1 < (List.map toInt64 (List.range (2 ^ 63 + 1))).length := by
    omega
  have hj : 2 ^ 63 < (List.map toInt64 (List.range (2 ^ 63 + 1))).length := by
    omega
  have hlt := hpw (2 ^ 63 - 1) (2 ^ 63) hi hj (by omega)
  simp only [List.getElem_map, List.getElem_range] at hlt
  rw [toInt64_of_lt (2 ^ 63 - 1) (by omega), toInt64_two_pow_63] at hlt
  omega

/-- Claim C1 as amended: over every trace of session operations starting from
a freshly connected Session in which at most 2^63 request ids are allocated
(the point at which the 64-bit counter first wraps), the allocated ids are
strictly increasing in allocation order and no id is allocated twice. -/
theorem c1_request_ids_strictly_increasing (wsC conn : Nat) (tabID : String)
    (ops : List SOp)
    (hbound : (runOps wsC (connectRemote conn tabID) ops).allocs.length ≤ 2 ^ 63) :
    ((runOps wsC (connectRemote conn tabID) ops).allocs).Pairwise (· < ·) ∧
    ((runOps wsC (connectRemote conn tabID) ops).allocs).Nodup := by
  have hchar := (runOps_allocs_characterization wsC ops (connectRemote conn tabID)
    (by rfl) (connectRemote_reqID_init conn tabID)).1
  have hpw : ((runOps wsC (connectRemote conn tabID) ops).allocs).Pairwise (· < ·) := by
    rw [hchar, List.pairwise_iff_getElem]
    intro i j hi hj hij
    simp only [List.length_map, List.length_range] at hi hj
    simp only [List.getElem_map, List.getElem_range]
    rw [toInt64_of_lt i (by omega), toInt64_of_lt j (by omega)]
    exact_mod_cast hij
  exact ⟨hpw, hpw.imp ne_of_lt⟩

/-- Witness for the amended C1: two submissions on a fresh Session allocate
the strictly increasing, duplicate-free ids 0 and 1. -/
theorem c1_request_ids_strictly_increasing_witness :
    ((runOps 0 (connectRemote 0 "tab0") [SOp.send, SOp.send]).allocs).Pairwise (· < ·) ∧
    ((runOps 0 (connectRemote 0 "tab0") [SOp.send, SOp.send]).allocs).Nodup :=
  c1_request_ids_strictly_increasing 0 0 "tab0" [SOp.send, SOp.send]
    (by decide)

/-- A reader iteration that reads an event frame whose method has no
registered callback changes nothing at all: the frame is discarded before
touching the queue. -/
lemma readStep_drop_id (wsC : Nat) (s : RemoteDebugger) (env : IterEnv)
    (m : WsMessage)
    (hsock : env.sockBefore = some wsC) (hread : env.read = .ok m)
    (hmeth : m.method ≠ "") (hreg : s.callbacks.contains m.method = false) :
    stepOp wsC s (.readStep (.work env)) = s := by
  cases hflag : s.exitFlag with
  | some b => simp [stepOp, hflag]
  | none =>
    have hmem : m.method ∉ s.callbacks := by simpa using hreg
    have hiter : readIter wsC s.callbacks (.work env) = ([], none) := by
      simp [readIter, hsock, hread, hmeth, hmem]
    simp only [stepOp, hflag, hiter, List.append_nil]
    cases s
    simp_all

/-- Running a trace splits at any concatenation point. -/
lemma runOps_append (wsC : Nat) (s : RemoteDebugger) (l₁ l₂ : List SOp) :
    runOps wsC s (l₁ ++ l₂) = runOps wsC (runOps wsC s l₁) l₂ :=
  List.foldl_append _ _ _ _

/-- Claim C3: an inbound event frame whose method is not in the callback
registry at the moment the reader reads it is discarded: the whole trace
behaves exactly as if that read had never happened (so the frame never
occupies an event queue slot and can never be replayed to a callback
registered later), and in particular the event queue after that step equals
the queue before it. -/
theorem c3_unregistered_event_discarded (wsC : Nat) (s0 : RemoteDebugger)
    (ops : List SOp) (i : Nat) (env : IterEnv) (m : WsMessage)
    (hop : ops[i]? = some (.readStep (.work env)))
    (hsock : env.sockBefore = some wsC)
    (hread : env.read = .ok m)
    (hmeth : m.method ≠ "")
    (hreg : (runOps wsC s0 (ops.take i)).callbacks.contains m.method = false) :
    runOps wsC s0 ops = runOps wsC s0 (ops.eraseIdx i) ∧
    (runOps wsC s0 (ops.take (i + 1))).events =
      (runOps wsC s0 (ops.take i)).events := by
  have hlen : i < ops.length := by
    by_contra hge
    rw [List.getElem?_eq_none (Nat.le_of_not_lt hge)] at hop
    exact Option.noConfusion hop
  have hget : ops[i] = .readStep (.work env) := by
    rw [List.getElem?_eq_getElem hlen] at hop
    exact Option.some.inj hop
  have hid : stepOp wsC (runOps wsC s0 (ops.take i)) (.readStep (.work env)) =
      runOps wsC s0 (ops.take i) :=
    readStep_drop_id wsC _ env m hsock hread hmeth hreg
  have htake : runOps wsC s0 (ops.take (i + 1)) = runOps wsC s0 (ops.take i) := by
    rw [List.take_succ, runOps_append]
    rw [List.getElem?_eq_getElem hlen, hget]
    exact hid
  constructor
  · have hsplit : ops = ops.take (i + 1) ++ ops.drop (i + 1) :=
      (List.take_append_drop (i + 1) ops).symm
    have herase : ops.eraseIdx i = ops.take i ++ ops.drop (i + 1) :=
      List.eraseIdx_eq_take_drop_succ ops i
    calc runOps wsC s0 ops
        = runOps wsC (runOps wsC s0 (ops.take (i + 1))) (ops.drop (i + 1)) := by
          conv_lhs => rw [hsplit, runOps_append]
      _ = runOps wsC (runOps wsC s0 (ops.take i)) (ops.drop (i + 1)) := by
          rw [htake]
      _ = runOps wsC s0 (ops.eraseIdx i) := by
          rw [herase, runOps_append]
  · rw [htake]

/-- Witness for C3: a trace consisting of one reader iteration that reads a
network event while no callback is registered leaves the fresh session
exactly as the empty trace does. -/
theorem c3_unregistered_event_discarded_witness :
    runOps 0 (connectRemote 0 "tab0") [SOp.readStep (.work sampleEventObs)] =
      runOps 0 (connectRemote 0 "tab0")
        ([SOp.readStep (.work sampleEventObs)].eraseIdx 0) ∧
    (runOps 0 (connectRemote 0 "tab0")
        ([SOp.readStep (.work sampleEventObs)].take 1)).events =
      (runOps 0 (connectRemote 0 "tab0")
        ([SOp.readStep (.work sampleEventObs)].take 0)).events :=
  c3_unregistered_event_discarded 0 (connectRemote 0 "tab0")
    [SOp.readStep (.work sampleEventObs)] 0 sampleEventObs sampleEvent
    rfl rfl rfl (by decide) rfl

/-- countMethod distributes over append. -/
lemma countMethod_append (name : String) (l₁ l₂ : List WsMessage) :
    countMethod name (l₁ ++ l₂) = countMethod name l₁ + countMethod name l₂ :=
  List.countP_append _ _ _

/-- countMethod of a singleton whose method differs is zero. -/
lemma countMethod_single_ne (name : String) (m : WsMessage) (h : m.method ≠ name) :
    countMethod name [m] = 0 := by
  simp [countMethod, List.countP_cons, h]

/-- The possible queue appends of one default-branch reader iteration whose
exit-check socket read does not see this reader's channel: nothing (with the
loop continuing or exiting), the synthetic closed event together with a loop
exit, or the read frame itself without a loop exit. -/
lemma readIter_shapes (wsC : Nat) (cbs : List String) (env : IterEnv)
    (hexit : env.sockExit ≠ some wsC) :
    (readIter wsC cbs (.work env)).1 = [] ∨
    ((readIter wsC cbs (.work env)).1 = [closedMessage] ∧
      (readIter wsC cbs (.work env)).2 = some true) ∨
    (∃ m, env.read = .ok m ∧ (readIter wsC cbs (.work env)).1 = [m] ∧
      (readIter wsC cbs (.work env)).2 = none) := by
  by_cases h1 : env.sockBefore = some wsC
  · cases hr : env.read with
    | err perm =>
      by_cases h2 : env.sockOnErr = some wsC
      · cases perm with
        | true => left; simp [readIter, exitEmission, h1, hr, h2, hexit]
        | false => left; simp [readIter, h1, hr, h2]
      · left; simp [readIter, h1, hr, h2]
    | ok m =>
      by_cases h3 : m.method = ""
      · left; simp [readIter, h1, hr, h3]
      · by_cases h4 : cbs.contains m.method
        · have h4m : m.method ∈ cbs := by simpa using h4
          cases h5 : env.enqClosed with
          | true =>
            right; left
            constructor <;> simp [readIter, exitEmission, h1, hr, h3, h4m, h5]
          | false =>
            right; right
            exact ⟨m, rfl, by simp [readIter, h1, hr, h3, h4m, h5],
              by simp [readIter, h1, hr, h3, h4m, h5]⟩
        · have h4m : m.method ∉ cbs := by simpa using h4
          left; simp [readIter, h1, hr, h3, h4m]
  · left; simp [readIter, exitEmission, h1, hexit]

/-- One session operation preserves the synthetic-event invariant, provided
that when it is a reader iteration its exit-check socket read does not see
this reader's channel and any frame it read does not impersonate a synthetic
event. -/
lemma stepOp_synthInv (wsC : Nat) (s : RemoteDebugger) (op : SOp)
    (hop : ∀ env, op = .readStep (.work env) →
      env.sockExit ≠ some wsC ∧
      ∀ m, env.read = .ok m → m.method ≠ EventClosed ∧ m.method ≠ EventDisconnect)
    (hinv : SynthInv s) : SynthInv (stepOp wsC s op) := by
  obtain ⟨i1, i2, i3, i4, i5⟩ := hinv
  cases op with
  | send =>
    cases hws : s.ws with
    | none => simpa [SynthInv, stepOp, sendAlloc, hws] using ⟨i1, i2, i3, i4, i5⟩
    | some c => simpa [SynthInv, stepOp, sendAlloc, hws] using ⟨i1, i2, i3, i4, i5⟩
  | complete reqID => simpa [SynthInv, stepOp, sendComplete] using ⟨i1, i2, i3, i4, i5⟩
  | closeOp e =>
    cases hws : s.ws with
    | none => simpa [SynthInv, stepOp, hws] using ⟨i1, i2, i3, i4, i5⟩
    | some c => simpa [SynthInv, stepOp, hws] using ⟨i1, i2, i3, i4, i5⟩
  | register m => simpa [SynthInv, stepOp] using ⟨i1, i2, i3, i4, i5⟩
  | connect tab? listResult dial =>
    obtain ⟨hq, ha, hc, he, hn, hd, hx⟩ := connectWs_preserves s tab? listResult dial
    simp only [SynthInv, stepOp]
    rw [he, hn, hd, hx]
    exact ⟨i1, i2, i3, i4, i5⟩
  | dispatch =>
    cases hev : s.events with
    | nil =>
      have hstep : stepOp wsC s .dispatch = s := by simp [stepOp, hev]
      rw [hstep]
      exact ⟨i1, i2, i3, i4, i5⟩
    | cons ev rest =>
      have hstep : stepOp wsC s .dispatch =
          { s with
              events := rest
              delivered := if s.callbacks.contains ev.method then s.delivered ++ [ev]
                           else s.delivered } := by
        simp [stepOp, hev]
      rw [hev, show (ev :: rest) = [ev] ++ rest from rfl, countMethod_append] at i4 i5
      rw [hstep]
      unfold SynthInv
      dsimp only
      refine ⟨i1, i2, i3, ?_, ?_⟩
      · split
        · rw [countMethod_append]; omega
        · omega
      · split
        · rw [countMethod_append]; omega
        · omega
  | readStep o =>
    cases hflag : s.exitFlag with
    | some b =>
      have hstep : stepOp wsC s (.readStep o) = s := by simp [stepOp, hflag]
      rw [hstep]
      exact ⟨i1, i2, i3, i4, i5⟩
    | none =>
      have hc0 : countMethod EventClosed s.enqueued = 0 := i3 hflag
      have hshape :
          (readIter wsC s.callbacks o).1 = [] ∨
          ((readIter wsC s.callbacks o).1 = [closedMessage] ∧
            (readIter wsC s.callbacks o).2 = some true) ∨
          (∃ m, (readIter wsC s.callbacks o).1 = [m] ∧
            (readIter wsC s.callbacks o).2 = none ∧
            m.method ≠ EventClosed ∧ m.method ≠ EventDisconnect) := by
        cases o with
        | closedSig => right; left; exact ⟨rfl, rfl⟩
        | work env =>
          obtain ⟨hx, hm⟩ := hop env rfl
          rcases readIter_shapes wsC s.callbacks env hx with h | ⟨h, h2⟩ | ⟨m, hr, h, h2⟩
          · left; exact h
          · right; left; exact ⟨h, h2⟩
          · right; right; exact ⟨m, h, h2, hm m hr⟩
      have hstep : stepOp wsC s (.readStep o) =
          { s with
              events := s.events ++ (readIter wsC s.callbacks o).1
              enqueued := s.enqueued ++ (readIter wsC s.callbacks o).1
              exitFlag := (readIter wsC s.callbacks o).2 } := by
        simp [stepOp, hflag]
      rw [hstep]
      unfold SynthInv
      dsimp only
      rcases hshape with h | ⟨h, h2⟩ | ⟨m, h, h2, hm1, hm2⟩
      · rw [h]
        simp only [List.append_nil]
        exact ⟨i1, i2, fun _ => hc0, i4, i5⟩
      · rw [h, h2]
        simp only [countMethod_append]
        have hc1 : countMethod EventClosed [closedMessage] = 1 := rfl
        have hd0 : countMethod EventDisconnect [closedMessage] = 0 := rfl
        refine ⟨by omega, by omega, fun hcon => Option.noConfusion hcon, by omega, by omega⟩
      · rw [h, h2]
        simp only [countMethod_append]
        have hcm : countMethod EventClosed [m] = 0 := countMethod_single_ne _ m hm1
        have hdm : countMethod EventDisconnect [m] = 0 := countMethod_single_ne _ m hm2
        refine ⟨by omega, by omega, fun _ => by omega, by omega, by omega⟩

/-- The synthetic-event invariant is preserved by whole traces. -/
lemma runOps_synthInv (wsC : Nat) (ops : List SOp) :
    ∀ s : RemoteDebugger,
      (∀ env, SOp.readStep (.work env) ∈ ops →
        env.sockExit ≠ some wsC ∧
        ∀ m, env.read = .ok m → m.method ≠ EventClosed ∧ m.method ≠ EventDisconnect) →
      SynthInv s → SynthInv (runOps wsC s ops) := by
  induction ops with
  | nil => exact fun s _ h => h
  | cons op rest ih =>
    intro s hops hinv
    show SynthInv (runOps wsC (stepOp wsC s op) rest)
    apply ih
    · exact fun env hmem => hops env (List.mem_cons_of_mem _ hmem)
    · apply stepOp_synthInv wsC s op
      · intro env heq
        refine hops env ?_
        rw [← heq]
        exact List.mem_cons_self _ _
      · exact hinv

/-- Claim C4: after Close has detached the channel, along every continuation
trace in which the reader's exit-time socket check never sees its own retired
channel again (the Close wrote nil into the ws field) and the peer never
forges the synthetic method names on the wire, at most one synthetic
RemoteDebugger.closed event is ever enqueued or delivered and exactly zero
RemoteDebugger.disconnected events are, no matter whether the reader loop
observes the shutdown through the closed-signal select case or through a
read error on the retired channel. -/
theorem c4_shutdown_synthetic_events (wsC : Nat) (s0 : RemoteDebugger)
    (ops : List SOp)
    (hops : ∀ env, SOp.readStep (.work env) ∈ ops →
      env.sockExit ≠ some wsC ∧
      ∀ m, env.read = .ok m → m.method ≠ EventClosed ∧ m.method ≠ EventDisconnect)
    (hinv : SynthInv s0) :
    countMethod EventClosed (runOps wsC s0 ops).enqueued ≤ 1 ∧
    countMethod EventDisconnect (runOps wsC s0 ops).enqueued = 0 ∧
    countMethod EventClosed (runOps wsC s0 ops).delivered ≤ 1 ∧
    countMethod EventDisconnect (runOps wsC s0 ops).delivered = 0 := by
  obtain ⟨h1, h2, h3, h4, h5⟩ := runOps_synthInv wsC ops s0 hops hinv
  refine ⟨h2, h1, ?_, ?_⟩
  · calc countMethod EventClosed (runOps wsC s0 ops).delivered
        ≤ countMethod EventClosed (runOps wsC s0 ops).delivered +
            countMethod EventClosed (runOps wsC s0 ops).events := Nat.le_add_right _ _
      _ ≤ countMethod EventClosed (runOps wsC s0 ops).enqueued := h4
      _ ≤ 1 := h2
  · have := le_trans (Nat.le_add_right
      (countMethod EventDisconnect (runOps wsC s0 ops).delivered)
      (countMethod EventDisconnect (runOps wsC s0 ops).events)) h5
    omega

/-- Witness for C4: a post-Close trace that first sees a read error on the
retired channel and then the closed-signal, followed by one dispatch. -/
theorem c4_shutdown_synthetic_events_witness :
    countMethod EventClosed (runOps 0 closedSession postCloseTrace).enqueued ≤ 1 ∧
    countMethod EventDisconnect (runOps 0 closedSession postCloseTrace).enqueued = 0 ∧
    countMethod EventClosed (runOps 0 closedSession postCloseTrace).delivered ≤ 1 ∧
    countMethod EventDisconnect (runOps 0 closedSession postCloseTrace).delivered = 0 :=
  c4_shutdown_synthetic_events 0 closedSession postCloseTrace
    (by
      intro env hmem
      simp [postCloseTrace] at hmem
      subst hmem
      refine ⟨by simp [postCloseErrObs], ?_⟩
      intro m hm
      simp [postCloseErrObs] at hm)
    (by
      refine ⟨rfl, ?_, fun _ => rfl, ?_, ?_⟩ <;>
        simp [closedSession, connectRemote, countMethod])

end Godet

